import Mathlib

/-!
# Verification of the meme-maker plugin's session/dispatch engine

Shallow embedding of the core logic of the `astrbot_plugin_mememaker_api`
repository, translated from the Python sources:

* `src/handlers/generation.py` — delivery planning (`_prepare_send_results`),
  the session launcher (`meme_generate_handler`), the background session
  worker (`_session_worker`), prompt recall bookkeeping
  (`_send_and_record` / `_cleanup_prompts`), and image/argument resolution
  (`_get_images_from_message` / `build_meme_payload`).
* `src/main.py` — the dispatcher (`universal_handler`): routing of follow-up
  messages into active sessions and longest-command-first matching.
* `src/recorder.py` — visibility-rule evaluation (`is_meme_disabled`).
* `src/models.py` — `MemeParams`.

Python byte strings are modelled as `List Nat`, dictionaries as association
lists with first-occurrence lookup, and asynchronous sends as explicit
action traces.  Cooperative (asyncio) interleaving, where a claim requires
it, is modelled as explicit program-counter steps whose boundaries are the
`await` suspension points of the source.
-/

/-- Image payloads (Python `bytes`). -/
abbrev Img := List Nat

/-! ## Association lists (Python `dict` with string keys)

`lookupA`/`setA`/`eraseA` model `d[k]`, `d[k] = v` and `d.pop(k, None)` on a
`dict` whose iteration order is insertion order (first occurrence wins). -/

/-- Model of `d.get(k)`: value at the first occurrence of key `k`. -/
def lookupA {α : Type} : List (String × α) → String → Option α
  | [], _ => none
  | p :: ps, k => if p.1 = k then some p.2 else lookupA ps k

/-- Model of `d[k] = v`: replace the first occurrence in place, else append. -/
def setA {α : Type} : List (String × α) → String → α → List (String × α)
  | [], k, v => [(k, v)]
  | p :: ps, k, v => if p.1 = k then (k, v) :: ps else p :: setA ps k v

/-- Model of `d.pop(k, None)`: remove the key. -/
def eraseA {α : Type} (l : List (String × α)) (k : String) : List (String × α) :=
  l.filter (fun p => p.1 ≠ k)

theorem lookupA_setA_self {α : Type} (l : List (String × α)) (k : String) (v : α) :
    lookupA (setA l k v) k = some v := by
  induction l with
  | nil => simp [setA, lookupA]
  | cons p ps ih =>
    by_cases h : p.1 = k
    · simp [setA, h, lookupA]
    · simp [setA, h, lookupA, ih]

theorem lookupA_setA_ne {α : Type} (l : List (String × α)) (k k' : String) (v : α)
    (h : k ≠ k') : lookupA (setA l k v) k' = lookupA l k' := by
  induction l with
  | nil => simp [setA, lookupA, h]
  | cons p ps ih =>
    by_cases hp : p.1 = k
    · simp [setA, hp, lookupA, h]
    · simp [setA, hp, lookupA, ih]

theorem lookupA_eraseA_self {α : Type} (l : List (String × α)) (k : String) :
    lookupA (eraseA l k) k = none := by
  induction l with
  | nil => simp [eraseA, lookupA]
  | cons p ps ih =>
    by_cases h : p.1 = k
    · simpa [eraseA, h, lookupA] using ih
    · simpa [eraseA, h, lookupA] using ih

theorem eraseA_idem {α : Type} (l : List (String × α)) (k : String) :
    eraseA (eraseA l k) k = eraseA l k := by
  simp [eraseA, List.filter_filter]

/-! ## DeliveryPlanner — `_prepare_send_results` (generation.py lines 40-118)

The async generator is modelled as a pure function producing the list of
delivery actions it performs (yielded results and active platform calls), in
order.  `asyncio.sleep(0.5)` between sequential sends appears as
`SendAct.sleepMs 500`.  `filetype.guess_extension` is passed in as `sniff`. -/

/-- Delivery configuration (`multi_image_options`, main.py lines 81-86). -/
structure DeliveryCfg where
  direct_send_threshold : Nat
  send_as_zip_enabled : Bool
  zip_threshold : Nat
  send_forward_msg : Bool
deriving DecidableEq

/-- Platform context: whether the event is aiocqhttp with a `bot` attribute,
and the group id (`none` in direct/private chats). -/
structure PlatformCtx where
  isAiocq : Bool
  groupId : Option String
deriving DecidableEq

/-- One delivery action emitted by `_prepare_send_results`. -/
inductive SendAct where
  | plainMsg (t : String)
  | chainImgs (imgs : List Img)
  | zipUpload (entries : List (String × Img))
  | forwardMsg (groupId : String) (imgs : List Img)
  | sleepMs (n : Nat)
deriving DecidableEq

/-- Result object, `Union[bytes, List[bytes]]`. -/
abbrev ResultObj := Sum Img (List Img)

/-- Python truthiness test `not result_obj` (empty bytes / empty list). -/
def pyFalsyResult : ResultObj → Bool
  | .inl b => b.isEmpty
  | .inr l => l.isEmpty

/-- Model of `[result_obj] if isinstance(result_obj, bytes) else result_obj`. -/
def toImageList : ResultObj → List Img
  | .inl b => [b]
  | .inr l => l

/-- Zip entry names: `image_{i+1}.{ext}`, `ext = guess_extension(img) or "png"`
(generation.py lines 62-64). -/
def zipEntries (sniff : Img → Option String) (l : List Img) : List (String × Img) :=
  l.enum.map (fun p => ("image_" ++ toString (p.1 + 1) ++ "." ++ ((sniff p.2).getD "png"), p.2))

/-- Sequential delivery: each image as its own message followed by a 0.5 s
sleep (generation.py lines 101-103 / 109-111 / 116-118). -/
def seqSend (l : List Img) : List SendAct :=
  l.flatMap (fun b => [SendAct.chainImgs [b], SendAct.sleepMs 500])

/-- Failure notice for an empty result (generation.py lines 46, 51). -/
def failNotice : SendAct := SendAct.plainMsg "图片处理失败，未收到结果。"

/-- Model of `_prepare_send_results` (generation.py lines 40-118). -/
def prepareSendResults (cfg : DeliveryCfg) (ctx : PlatformCtx) (sniff : Img → Option String)
    (ro : ResultObj) : List SendAct :=
  if pyFalsyResult ro = true then [failNotice]
  else
    let l := toImageList ro
    if l = [] then [failNotice]
    else if l.length ≤ cfg.direct_send_threshold then [SendAct.chainImgs l]
    else if cfg.send_as_zip_enabled = true ∧ cfg.zip_threshold < l.length then
      SendAct.plainMsg ("图片过多（" ++ toString l.length ++ "张），将打包为 .zip 文件发送...") ::
        (if ctx.isAiocq = true ∧ ctx.groupId.isSome then
          [SendAct.zipUpload (zipEntries sniff l)]
        else
          [SendAct.plainMsg "当前平台或私聊不支持发送文件。"])
    else if cfg.send_forward_msg = true then
      SendAct.plainMsg ("处理完成，生成 " ++ toString l.length ++ " 张图片，将以合并转发形式发送：") ::
        (if ctx.isAiocq = true then
          match ctx.groupId with
          | some gid => [SendAct.forwardMsg gid l]
          | none => SendAct.plainMsg "私聊不支持发送合并转发，将逐条发送..." :: seqSend l
        else
          SendAct.plainMsg "当前平台不支持发送合并转发，将逐条发送..." :: seqSend l)
    else
      SendAct.plainMsg ("处理完成，共生成 " ++ toString l.length ++ " 张图片：") :: seqSend l

/-! ## Visibility rules — `is_meme_disabled` (recorder.py lines 134-146)

The `meme_manager` table is a list of rows; `fetchone` of a filtered query is
the first matching row.  Rows are unique per `(meme_key, scope, subject_id)`
(the table's primary key), and global rules are always written with
`subject_id = '*'` (management.py lines 135, 146). -/

/-- A row of the `meme_manager` table. -/
structure VisRule where
  meme_key : String
  scope : String
  subject_id : String
  mode : String
deriving DecidableEq

/-- Query `SELECT mode FROM meme_manager WHERE meme_key = ? AND scope = 'global'`,
`fetchone` (recorder.py line 137). -/
def queryGlobalMode (rules : List VisRule) (key : String) : Option String :=
  (rules.find? (fun r => r.meme_key = key ∧ r.scope = "global")).map (·.mode)

/-- Query `SELECT mode FROM meme_manager WHERE meme_key = ? AND scope = 'group' AND
subject_id = ?`, `fetchone` (recorder.py line 141). -/
def queryGroupMode (rules : List VisRule) (key gid : String) : Option String :=
  (rules.find? (fun r => r.meme_key = key ∧ r.scope = "group" ∧ r.subject_id = gid)).map (·.mode)

/-- Model of `is_meme_disabled` (recorder.py lines 134-146). -/
def is_meme_disabled (rules : List VisRule) (key : String) (group_id : Option String) : Bool :=
  let globalRule := queryGlobalMode rules key
  let groupRule := match group_id with
    | some gid => queryGroupMode rules key gid
    | none => none
  if globalRule = some "white" then
    ¬(groupRule = some "white")
  else
    groupRule = some "black"

/-! ## Dispatcher command matching (main.py lines 102-129, 172-191)

`sorted(self.cmd_map.keys(), key=len, reverse=True)` followed by the first
`cleaned_text.startswith(cmd)` hit; `cmd == "表情统计"` is skipped. -/

/-- The keys of `cmd_map` in construction order (main.py lines 102-129). -/
def cmdKeys : List String :=
  ["表情列表", "表情详情", "表情详细", "表情搜索", "刷新表情", "禁用表情", "启用表情",
   "管理列表", "全局禁用表情", "全局启用表情", "群管理员", "表情调用统计", "随机表情",
   "水平翻转", "竖直翻转", "旋转", "缩放", "裁剪", "灰度", "反色", "水平拼接", "竖直拼接",
   "gif分解", "gif合成", "gif倒放", "gif变速"]

/-- Insert into a length-descending list, keeping earlier elements of at least
the same length in front (stable descending sort step). -/
def insertLenDesc (x : String) : List String → List String
  | [] => [x]
  | y :: ys => if x.length ≤ y.length then y :: insertLenDesc x ys else x :: y :: ys

/-- Model of `sorted(keys, key=len, reverse=True)`. -/
def sortLenDesc : List String → List String
  | [] => []
  | x :: xs => insertLenDesc x (sortLenDesc xs)

/-- Python `text.startswith(c)`: `c`'s code points lead `text`'s. -/
def pyStartsWith (text c : String) : Bool := c.data.isPrefixOf text.data

/-- Command lookup of `universal_handler` (main.py lines 172-177): first
command, in length-descending order, that is a leading piece of the text;
`"表情统计"` is skipped (line 174). -/
def matchCommand (text : String) : Option String :=
  (sortLenDesc cmdKeys).find? (fun c => !(c == "表情统计") && pyStartsWith text c)

theorem mem_insertLenDesc (x a : String) (l : List String) :
    a ∈ insertLenDesc x l ↔ a = x ∨ a ∈ l := by
  induction l with
  | nil => simp [insertLenDesc]
  | cons y ys ih =>
    by_cases h : x.length ≤ y.length
    · simp only [insertLenDesc, if_pos h, List.mem_cons, ih]
      tauto
    · simp only [insertLenDesc, if_neg h, List.mem_cons]

theorem mem_sortLenDesc (a : String) (l : List String) :
    a ∈ sortLenDesc l ↔ a ∈ l := by
  induction l with
  | nil => simp [sortLenDesc]
  | cons x xs ih =>
    simp only [sortLenDesc, mem_insertLenDesc, List.mem_cons, ih]

theorem pairwise_insertLenDesc (x : String) (l : List String)
    (h : l.Pairwise (fun a b => b.length ≤ a.length)) :
    (insertLenDesc x l).Pairwise (fun a b => b.length ≤ a.length) := by
  induction l with
  | nil => simp [insertLenDesc]
  | cons y ys ih =>
    rcases List.pairwise_cons.mp h with ⟨hy, hys⟩
    by_cases hxy : x.length ≤ y.length
    · simp only [insertLenDesc, if_pos hxy]
      refine List.pairwise_cons.mpr ⟨?_, ih hys⟩
      intro a ha
      rcases (mem_insertLenDesc x a ys).mp ha with rfl | ha
      · exact hxy
      · exact hy a ha
    · simp only [insertLenDesc, if_neg hxy]
      refine List.pairwise_cons.mpr ⟨?_, h⟩
      intro a ha
      rcases List.mem_cons.mp ha with rfl | ha
      · omega
      · exact le_trans (hy a ha) (by omega)

theorem pairwise_sortLenDesc (l : List String) :
    (sortLenDesc l).Pairwise (fun a b => b.length ≤ a.length) := by
  induction l with
  | nil => simp [sortLenDesc]
  | cons x xs ih => exact pairwise_insertLenDesc x (sortLenDesc xs) ih

/-- The first `find?` hit in a pairwise-ordered list dominates every other
element satisfying the predicate. -/
theorem find?_pairwise_dominates {R : String → String → Prop} {p : String → Bool}
    {l : List String} {r : String} (hpw : l.Pairwise R) (hf : l.find? p = some r) :
    ∀ c ∈ l, p c = true → r = c ∨ R r c := by
  induction l with
  | nil => simp at hf
  | cons a l ih =>
    rcases List.pairwise_cons.mp hpw with ⟨ha, hl⟩
    by_cases hpa : p a
    · rw [List.find?_cons_of_pos _ hpa] at hf
      injection hf with hf
      subst hf
      intro c hc hpc
      rcases List.mem_cons.mp hc with rfl | hc
      · exact Or.inl rfl
      · exact Or.inr (ha c hc)
    · rw [List.find?_cons_of_neg _ (by simpa using hpa)] at hf
      intro c hc hpc
      rcases List.mem_cons.mp hc with rfl | hc
      · exact absurd hpc (by simpa using hpa)
      · exact ih hl hf c hc hpc

/-! ## Image collection — `_get_images_from_message` / `build_meme_payload`
(generation.py lines 353-387)

Message segments carry their resolved content: an image segment carries the
bytes obtained from base64/raw/URL fetch (`none` when the fetch failed, in
which case `_process` appends nothing), a mention carries its raw qq string,
a reply carries its chain.  Avatar fetching (`_get_avatar`, lines 429-432) is
`download` guarded by `isdigit`. -/

/-- Python `str.isdigit()` on the ids used here: nonempty, all digits. -/
def isDigits (s : String) : Bool := s ≠ "" ∧ s.data.all (fun c => c.isDigit)

/-- Model of `_get_avatar` (generation.py lines 429-432): `None` unless the id is a
digit string, else the downloaded avatar (download may fail). -/
def getAvatar (download : String → Option Img) (uid : String) : Option Img :=
  if isDigits uid then download uid else none

/-- A message segment, with attachment contents already resolved. -/
inductive Seg where
  | img (data : Option Img)
  | mention (qq : String)
  | replySeg (chain : List Seg)
  | plainSeg (t : String)

/-- Whether a segment is a `Comp.Reply`. -/
def isReplySeg : Seg → Bool
  | .replySeg _ => true
  | _ => false

/-- The chain of a reply segment. -/
def chainOf : Seg → List Seg
  | .replySeg c => c
  | _ => []

/-- Model of `_process(seg)` (generation.py lines 355-365): an image segment appends
its resolved bytes, an `At` segment with truthy qq appends the avatar when
the fetch succeeds, everything else appends nothing. -/
def processSeg (download : String → Option Img) : Seg → List Img
  | .img o => o.toList
  | .mention q => if q ≠ "" then (getAvatar download q).toList else []
  | _ => []

/-- Model of `_get_images_from_message` (generation.py lines 353-371): the first reply
segment's chain is processed first, then every segment of the message itself,
each in order. -/
def getImagesFromMessage (download : String → Option Img) (msgs : List Seg) : List Img :=
  (((msgs.find? isReplySeg).map chainOf).getD []).flatMap (processSeg download)
    ++ msgs.flatMap (processSeg download)

/-- An image segment's contribution alone. -/
def attachmentOnly : Seg → List Img
  | .img o => o.toList
  | _ => []

/-- A mention segment's contribution alone. -/
def mentionOnly (download : String → Option Img) : Seg → List Img
  | .mention q => if q ≠ "" then (getAvatar download q).toList else []
  | _ => []

/-- Image order as the claim words it (for comparison with the source
definition): reply-chain images first, then all direct attachments, then all
mention-derived avatars. -/
def claimOrderImages (download : String → Option Img) (msgs : List Seg) : List Img :=
  (((msgs.find? isReplySeg).map chainOf).getD []).flatMap (processSeg download)
    ++ msgs.flatMap attachmentOnly ++ msgs.flatMap (mentionOnly download)

/-- The image part of `build_meme_payload` (generation.py lines 374-387):
message images, then avatars for digit-string shortcut names, then — when the
sender-avatar fallback is enabled and the count is still below the meme's
minimum — the sender's avatar inserted at the front. -/
def buildPayloadImages (download : String → Option Img) (msgs : List Seg)
    (shortcutNames : List String) (useSender : Bool) (senderId : String)
    (minImages : Nat) : List Img :=
  let base := getImagesFromMessage download msgs
    ++ shortcutNames.flatMap (fun n => if isDigits n then (getAvatar download n).toList else [])
  if useSender = true ∧ base.length < minImages then
    (getAvatar download senderId).toList ++ base
  else base

/-- Image ids uploaded by `_final_generate_and_send` (generation.py lines
203-208): the collected images truncated to `max_images`, uploaded in order
(`asyncio.gather` keeps the order of its arguments). -/
def uploadedIds (upload : Img → Nat) (imgs : List Img) (maxImages : Nat) : List Nat :=
  (imgs.take maxImages).map upload

/-- Model of `image_payload` construction (generation.py line 208). -/
def imagePayloadEntries (upload : Img → Nat) (imgs : List Img) (maxImages : Nat) :
    List (Nat × String) :=
  (uploadedIds upload imgs maxImages).enum.map (fun p => (p.2, "img" ++ toString p.1))

/-! ## Session engine state (generation.py / main.py)

`active_sessions` and `recall_message_ids` (main.py lines 98-99) live in a
global state.  Actively sent messages are modelled as `Act` trace entries;
message ids produced by the platform are drawn from a counter. -/

/-- Model of `MemeParams` (models.py lines 12-19), option specs omitted. -/
structure MemeParamsM where
  min_images : Nat
  max_images : Nat
  min_texts : Nat
  max_texts : Nat
  default_texts : List String
deriving DecidableEq

/-- The single-slot wait gate (`asyncio.Future`): `pending` = not done,
`resolvedEv` = `set_result` was called, `cancelledF` = cancelled by
`asyncio.wait_for` on timeout.  The latter two are `done()`. -/
inductive FutureSt where
  | pending
  | resolvedEv
  | cancelledF
deriving DecidableEq

/-- One entry of `active_sessions` (generation.py lines 336-339, 243). -/
structure SessionSt where
  texts : List String
  images : List Img
  options : List (String × String)
  params : MemeParamsM
  invalidCount : Nat
  status : String
  future : Option FutureSt
deriving DecidableEq

/-- Externally visible actions of the engine. -/
inductive Act where
  | send (text : String)
  | recall (msgId : String)
  | spawnWorker (sid : String)
  | sendResults
deriving DecidableEq

/-- The plugin's shared mutable state. -/
structure GState where
  sessions : List (String × SessionSt)
  recallIds : List (String × List String)
  nextMsgId : Nat
deriving DecidableEq

/-- Record a sent message id for later recall (generation.py lines 134-137):
`if sid not in map: map[sid] = []` then `append`. -/
def appendRecallId (g : GState) (sid mid : String) : GState :=
  match lookupA g.recallIds sid with
  | some ids => { g with recallIds := setA g.recallIds sid (ids ++ [mid]) }
  | none => { g with recallIds := setA g.recallIds sid [mid] }

/-- Model of `_send_and_record` (generation.py lines 121-143).  `recallEnabled` stands
for `self.recall_enabled and platform == "aiocqhttp" and hasattr(event, "bot")`
with a successful send returning a message id; otherwise the text is sent
without recording. -/
def sendAndRecord (g : GState) (sid : String) (recallEnabled : Bool) (text : String) :
    GState × List Act :=
  if recallEnabled = true then
    (appendRecallId { g with nextMsgId := g.nextMsgId + 1 } sid (toString g.nextMsgId),
     [Act.send text])
  else (g, [Act.send text])

/-- Model of `_cleanup_prompts` (generation.py lines 145-159): no-op unless recall is
enabled; otherwise pop the session's pending ids and recall each. -/
def cleanupPrompts (g : GState) (sid : String) (recallEnabled : Bool) : GState × List Act :=
  if recallEnabled = false then (g, [])
  else
    match lookupA g.recallIds sid with
    | some ids => ({ g with recallIds := eraseA g.recallIds sid }, ids.map Act.recall)
    | none => (g, [])

/-- The `finally` block of `_session_worker` (generation.py lines 289-293):
`_cleanup_prompts` then `active_sessions.pop(session_id, None)`. -/
def workerFinally (g : GState) (sid : String) (recallEnabled : Bool) : GState × List Act :=
  let r := cleanupPrompts g sid recallEnabled
  ({ r.1 with sessions := eraseA r.1.sessions sid }, r.2)

/-- The four ways the body of `_session_worker` can end. -/
inductive ExitPath where
  | success
  | userCancel
  | timeoutExit
  | internalError
deriving DecidableEq

/-- What the worker body emits on each exit path before the `finally` block:
the timeout notice (line 247) and cancel acknowledgement (line 251) are sent
via `context.send_message` (no recording), the generic failure notice
(line 288) via `_send_and_record`, and success sends the results
(lines 214-216). -/
def workerExitBody (p : ExitPath) (g : GState) (sid : String) (recallEnabled : Bool) :
    GState × List Act :=
  match p with
  | .timeoutExit => (g, [Act.send "输入超时或交互时间过长，制作已取消"])
  | .userCancel => (g, [Act.send "操作已取消。"])
  | .internalError => sendAndRecord g sid recallEnabled "表情制作失败了，呜呜..."
  | .success => (g, [Act.sendResults])

/-- A whole worker termination: body of the chosen exit path, then the
guaranteed `finally` cleanup (generation.py lines 286-293). -/
def workerExit (p : ExitPath) (g : GState) (sid : String) (recallEnabled : Bool) :
    GState × List Act :=
  let b := workerExitBody p g sid recallEnabled
  let f := workerFinally b.1 sid recallEnabled
  (f.1, b.2 ++ f.2)

/-- Model of `dict.update` (generation.py line 331): keys of `upd` overwrite in place,
new keys are appended. -/
def dictUpdate (base upd : List (String × String)) : List (String × String) :=
  upd.foldl (fun acc p => setA acc p.1 p.2) base

/-- Initial session texts (generation.py lines 329-334): shortcut texts then
parsed texts; if that is empty and the meme declares default texts, the
defaults are used instead. -/
def initialSessionTexts (shortcutTexts parsedTexts defaultTexts : List String) : List String :=
  let ft := shortcutTexts ++ parsedTexts
  if ft = [] ∧ defaultTexts ≠ [] then defaultTexts else ft

/-- Model of `meme_generate_handler` (generation.py lines 312-349), in the successful
sequential execution: the payload-resolution results (which the source
obtains from `await self.build_meme_payload` between the existence check and
the insertion) are passed in as `parsedTexts`/`initialImages`/`parsedOptions`.
Returns the new state, the action trace and whether a session was created. -/
def memeGenerateHandler (g : GState) (sid : String) (recallEnabled : Bool)
    (shortcutTexts : List String) (shortcutOptions : List (String × String))
    (parsedTexts : List String) (initialImages : List Img)
    (parsedOptions : List (String × String)) (p : MemeParamsM) :
    GState × List Act × Bool :=
  if (lookupA g.sessions sid).isSome then
    let r := sendAndRecord g sid recallEnabled "您上一个表情正在制作中，请稍等片刻~"
    (r.1, r.2, false)
  else
    let st : SessionSt :=
      { texts := initialSessionTexts shortcutTexts parsedTexts p.default_texts
        images := initialImages
        options := dictUpdate shortcutOptions parsedOptions
        params := p
        invalidCount := 0
        status := "waiting_for_input"
        future := none }
    ({ g with sessions := setA g.sessions sid st }, [Act.spawnWorker sid], true)

/-- The session-routing head of `universal_handler` (main.py lines 146-152):
if the sender's session id has an active session whose wait gate is a
not-yet-done future, resolve it with the event and stop; otherwise fall
through to normal dispatch, leaving the session state untouched. -/
def routeToSession (g : GState) (sid : String) : GState × Bool :=
  match lookupA g.sessions sid with
  | some s =>
    if s.future = some .pending then
      ({ g with sessions := setA g.sessions sid { s with future := some .resolvedEv } }, true)
    else (g, false)
  | none => (g, false)

/-- The effect of `asyncio.wait_for` timing out on the session's wait gate
(generation.py line 245): the pending future is cancelled. -/
def timeoutCancel (g : GState) (sid : String) : GState :=
  match lookupA g.sessions sid with
  | some s =>
    if s.future = some .pending then
      { g with sessions := setA g.sessions sid { s with future := some .cancelledF } }
    else g
  | none => g

/-- The complete timeout path of `_session_worker` (generation.py lines
245-248 and 289-293): the gate is cancelled, the timeout notice is sent, the
worker returns, and the `finally` cleanup removes the session. -/
def timeoutPath (g : GState) (sid : String) (recallEnabled : Bool) : GState × List Act :=
  workerExit .timeoutExit (timeoutCancel g sid) sid recallEnabled

/-! ## Two interleaved trigger tasks (asyncio semantics of
`meme_generate_handler`, generation.py lines 312-343)

`universal_handler` starts each trigger as its own task
(`asyncio.create_task`, main.py lines 190, 196, 203).  Inside a task, code
between `await` points runs atomically; `await self.build_meme_payload(event,
...)` (line 328) sits between the existence check (line 319) and the session
insertion (line 340) and suspends whenever payload construction fetches an
image or avatar over the network (generation.py lines 362, 385-387, 432).
The model gives each task a program counter whose steps are exactly these
atomic regions. -/

/-- Program counter of one trigger task: `atCheck` = about to run lines
317-322; `atInsert` = passed the check and suspended in
`await build_meme_payload` (line 328), about to run lines 336-343;
`finishedT c` = returned, having created a session iff `c`. -/
inductive TrigPc where
  | atCheck
  | atInsert
  | finishedT (created : Bool)
deriving DecidableEq

/-- Two trigger tasks for the same session id, sharing `active_sessions`.
Sessions are tagged by the creating task (1 or 2) via a distinguishing
`texts` value, standing for the two tasks' distinct session states. -/
structure TwoTrig where
  g : GState
  pc1 : TrigPc
  pc2 : TrigPc
deriving DecidableEq

/-- The session state task `i` would create. -/
def trigSession (i : Nat) : SessionSt :=
  { texts := [toString i], images := [], options := [],
    params := ⟨0, 99, 0, 99, []⟩, invalidCount := 0,
    status := "waiting_for_input", future := none }

/-- One atomic step of task 1 or task 2 for session id `sid`.  At `atCheck`,
`session_id in self.active_sessions` (line 319) either rejects the trigger or
lets the task proceed into the awaited payload construction; at `atInsert`,
`self.active_sessions[session_id] = session_state` (line 340) runs. -/
def trigStep (sid : String) (st : TwoTrig) (taskTwo : Bool) : TwoTrig :=
  let pc := if taskTwo then st.pc2 else st.pc1
  let setPc := fun (st' : TwoTrig) (pc' : TrigPc) =>
    if taskTwo then { st' with pc2 := pc' } else { st' with pc1 := pc' }
  match pc with
  | .atCheck =>
    if (lookupA st.g.sessions sid).isSome then setPc st (.finishedT false)
    else setPc st .atInsert
  | .atInsert =>
    let i := if taskTwo then 2 else 1
    setPc { st with g := { st.g with sessions := setA st.g.sessions sid (trigSession i) } }
      (.finishedT true)
  | .finishedT _ => st

/-- Run a schedule (list of task choices). -/
def runTrigSched (sid : String) (sched : List Bool) (st : TwoTrig) : TwoTrig :=
  sched.foldl (trigStep sid) st

/-- Both tasks start at their existence check over an empty state. -/
def trigInit : TwoTrig :=
  { g := { sessions := [], recallIds := [], nextMsgId := 0 }, pc1 := .atCheck, pc2 := .atCheck }

/-! ## The interactive wait-loop body — one routed follow-up message
(generation.py lines 250-281)

`sessionStep` is the body of the `while` loop after `asyncio.wait_for`
returned an event: cancel check, needed/provided analysis, data collection,
and the smart-reprompt branch.  Outputs are the prompt texts sent (all via
`_send_and_record` except the cancel acknowledgement) and a control tag. -/

/-- Python `str.strip()`: drop leading and trailing whitespace. -/
def pyStrip (s : String) : String :=
  ⟨((s.data.dropWhile Char.isWhitespace).reverse.dropWhile Char.isWhitespace).reverse⟩

/-- Helper for `pySplitWs`: scan characters, accumulating the current token
in reverse; whitespace ends a token, empty tokens are dropped. -/
def splitWsAux : List Char → List Char → List String
  | [], acc => if acc = [] then [] else [⟨acc.reverse⟩]
  | c :: cs, acc =>
    if c.isWhitespace then
      (if acc = [] then [] else [⟨acc.reverse⟩]) ++ splitWsAux cs []
    else splitWsAux cs (c :: acc)

/-- Python `str.split()`: split on whitespace runs, dropping empty tokens. -/
def pySplitWs (s : String) : List String := splitWsAux s.data []

/-- Configuration of the wait loop: the full cancel command
`f"{self.prefix}取消"` and the smart-reprompt settings (main.py lines 59,
77-79). -/
structure StepCfg where
  cancelCmd : String
  repromptEnabled : Bool
  repromptThreshold : Nat
deriving DecidableEq

/-- A routed follow-up message: its stripped-text source and resolved images
(`next_event.get_message_str()` and `_get_images_from_message(next_event)`). -/
structure StepMsg where
  text : String
  imgs : List Img
deriving DecidableEq

/-- How the loop body left the loop. -/
inductive StepCtl where
  | cancelled
  | completed
  | waiting
deriving DecidableEq

/-- Result of one loop-body execution. -/
structure StepRes where
  st : SessionSt
  out : List String
  ctl : StepCtl
deriving DecidableEq

/-- Text of the updated deficiency prompt (generation.py lines 269-272). -/
def stillNeedMsg (p : MemeParamsM) (texts : List String) (images : List Img) : String :=
  String.intercalate "、"
    ((if texts.length < p.min_texts
      then ["还差 " ++ toString (p.min_texts - texts.length) ++ " 段文字"] else []) ++
     (if images.length < p.min_images
      then ["还差 " ++ toString (p.min_images - images.length) ++ " 张图片"] else []))
    ++ "。"

/-- The smart-reprompt nudge selection (generation.py lines 276-278),
evaluated on the pre-message session state: a nudge exists only when the
message supplied text while texts are already sufficient, or images while
images are already sufficient. -/
def smartNudge (s : SessionSt) (m : StepMsg) : Option String :=
  if ¬(s.texts.length < s.params.min_texts) ∧ pyStrip m.text ≠ "" then
    some "文字已经够啦，请发送我需要的图片哦~"
  else if ¬(s.images.length < s.params.min_images) ∧ m.imgs ≠ [] then
    some "图片已经够啦，我现在需要的是文字~"
  else none

/-- One execution of the wait-loop body on a routed event
(generation.py lines 250-281). -/
def sessionStep (cfg : StepCfg) (s : SessionSt) (m : StepMsg) : StepRes :=
  let t := pyStrip m.text
  if t = cfg.cancelCmd then ⟨s, ["操作已取消。"], .cancelled⟩
  else
    let needsText := s.texts.length < s.params.min_texts
    let needsImage := s.images.length < s.params.min_images
    if (needsText ∧ t ≠ "") ∨ (needsImage ∧ m.imgs ≠ []) then
      let texts1 := if needsText ∧ t ≠ "" then s.texts ++ pySplitWs t else s.texts
      let images1 := if needsImage ∧ m.imgs ≠ [] then s.images ++ m.imgs else s.images
      let s1 := { s with texts := texts1, images := images1, invalidCount := 0 }
      if s.params.min_texts ≤ texts1.length ∧ s.params.min_images ≤ images1.length then
        ⟨s1, ["参数已集齐，开始制作..."], .completed⟩
      else
        ⟨s1, [stillNeedMsg s.params texts1 images1], .waiting⟩
    else
      let c1 := s.invalidCount + 1
      if cfg.repromptEnabled = true ∧ cfg.repromptThreshold ≤ c1 then
        match smartNudge s m with
        | some msg => ⟨{ s with invalidCount := 0 }, [msg], .waiting⟩
        | none => ⟨{ s with invalidCount := c1 }, [], .waiting⟩
      else ⟨{ s with invalidCount := c1 }, [], .waiting⟩

/-! ## Structural lemmas about the worker exit paths -/

theorem cleanupPrompts_sessions (g : GState) (sid : String) (en : Bool) :
    (cleanupPrompts g sid en).1.sessions = g.sessions := by
  unfold cleanupPrompts
  by_cases h : en = false
  · simp [h]
  · simp [h]
    cases lookupA g.recallIds sid <;> simp

theorem workerFinally_sessions (g : GState) (sid : String) (en : Bool) :
    (workerFinally g sid en).1.sessions = eraseA g.sessions sid := by
  show (GState.sessions _) = _
  simp only [workerFinally, cleanupPrompts_sessions]

theorem workerExitBody_sessions (p : ExitPath) (g : GState) (sid : String) (en : Bool) :
    (workerExitBody p g sid en).1.sessions = g.sessions := by
  cases p <;> simp [workerExitBody, sendAndRecord, appendRecallId] <;>
    (try cases en) <;> simp <;> (try cases lookupA g.recallIds sid) <;> simp

/-! ## Claim C1 -/

/-- Claim C1 (amended): when `meme_generate_handler`'s existence check observes
an active session for the sender's session id, it sends the "please wait"
notice and returns: the active-sessions map is unchanged (in particular the
existing session's state is untouched), no session is created, and no worker
is spawned.  (The check and the insertion are, however, not atomic: they are
separated by the awaited payload construction — see `c1_counterexample`.) -/
theorem c1_second_trigger_rejected (g : GState) (sid : String) (en : Bool)
    (stexts ptexts : List String) (sopts popts : List (String × String))
    (imgs : List Img) (p : MemeParamsM)
    (h : (lookupA g.sessions sid).isSome = true) :
    (memeGenerateHandler g sid en stexts sopts ptexts imgs popts p).1.sessions = g.sessions ∧
    (memeGenerateHandler g sid en stexts sopts ptexts imgs popts p).2.1 =
      [Act.send "您上一个表情正在制作中，请稍等片刻~"] ∧
    (memeGenerateHandler g sid en stexts sopts ptexts imgs popts p).2.2 = false := by
  unfold memeGenerateHandler
  rw [if_pos h]
  unfold sendAndRecord appendRecallId
  by_cases hen : en = true
  · rw [if_pos hen]
    cases lookupA g.recallIds sid <;> simp
  · rw [if_neg hen]
    simp

/-- Witness for `c1_second_trigger_rejected` at a concrete state holding an
active session. -/
theorem c1_witness :
    (memeGenerateHandler
        ⟨[("10-7", trigSession 1)], [], 0⟩ "10-7" true [] [] [] [] [] ⟨1, 1, 1, 1, []⟩).1.sessions
      = [("10-7", trigSession 1)] ∧
    (memeGenerateHandler
        ⟨[("10-7", trigSession 1)], [], 0⟩ "10-7" true [] [] [] [] [] ⟨1, 1, 1, 1, []⟩).2.1
      = [Act.send "您上一个表情正在制作中，请稍等片刻~"] ∧
    (memeGenerateHandler
        ⟨[("10-7", trigSession 1)], [], 0⟩ "10-7" true [] [] [] [] [] ⟨1, 1, 1, 1, []⟩).2.2
      = false :=
  c1_second_trigger_rejected ⟨[("10-7", trigSession 1)], [], 0⟩ "10-7" true
    [] [] [] [] [] ⟨1, 1, 1, 1, []⟩ (by decide)

/-- Claim C1 (counterexample): under the schedule in which both trigger tasks
run their existence check (generation.py line 319) before either resumes from
the awaited payload construction (line 328), both tasks create a session for
the same session id (line 340): the claim's atomicity — "a second trigger is
never queued or merged", "at most one session is active", "without altering
the existing session's state" — fails, the second insertion overwriting the
first task's session. -/
theorem c1_counterexample :
    (runTrigSched "10-7" [false, true, false, true] trigInit).pc1 = .finishedT true ∧
    (runTrigSched "10-7" [false, true, false, true] trigInit).pc2 = .finishedT true ∧
    lookupA (runTrigSched "10-7" [false, true, false, true] trigInit).g.sessions "10-7"
      = some (trigSession 2) ∧
    trigSession 2 ≠ trigSession 1 := by
  decide

/-! ## Claims C3 and C5 -/

/-- Claim C3: for a session whose wait gate is pending, the timeout path sends
the timeout notice and removes the session from the active set, with no
retry; and a message arriving after the timeout has fired — whether in the
window where the gate is already cancelled but the session not yet popped, or
after the pop — is not routed into the session and leaves the state of the
engine untouched (`universal_handler` only resolves a gate that is not yet
done, main.py lines 146-152). -/
theorem c3_timeout_no_resurrection (g : GState) (sid : String) (en : Bool) (s : SessionSt)
    (hs : lookupA g.sessions sid = some s) (hp : s.future = some .pending) :
    lookupA (timeoutPath g sid en).1.sessions sid = none ∧
    Act.send "输入超时或交互时间过长，制作已取消" ∈ (timeoutPath g sid en).2 ∧
    routeToSession (timeoutCancel g sid) sid = (timeoutCancel g sid, false) ∧
    routeToSession (timeoutPath g sid en).1 sid = ((timeoutPath g sid en).1, false) := by
  have hcancel : lookupA (timeoutCancel g sid).sessions sid
      = some { s with future := some .cancelledF } := by
    unfold timeoutCancel
    rw [hs]
    dsimp only
    rw [if_pos hp]
    exact lookupA_setA_self _ _ _
  have hgone : lookupA (timeoutPath g sid en).1.sessions sid = none := by
    unfold timeoutPath workerExit
    simp only [workerFinally_sessions, workerExitBody_sessions]
    exact lookupA_eraseA_self _ _
  refine ⟨hgone, ?_, ?_, ?_⟩
  · unfold timeoutPath workerExit workerExitBody
    simp
  · unfold routeToSession
    rw [hcancel]
    simp
  · unfold routeToSession
    rw [hgone]

/-- Witness for `c3_timeout_no_resurrection` at a concrete waiting session. -/
theorem c3_witness :
    lookupA (timeoutPath
        ⟨[("10-7", { trigSession 1 with future := some .pending })], [], 0⟩
        "10-7" true).1.sessions "10-7" = none ∧
    Act.send "输入超时或交互时间过长，制作已取消" ∈ (timeoutPath
        ⟨[("10-7", { trigSession 1 with future := some .pending })], [], 0⟩ "10-7" true).2 ∧
    routeToSession (timeoutCancel
        ⟨[("10-7", { trigSession 1 with future := some .pending })], [], 0⟩ "10-7") "10-7"
      = (timeoutCancel
        ⟨[("10-7", { trigSession 1 with future := some .pending })], [], 0⟩ "10-7", false) ∧
    routeToSession (timeoutPath
        ⟨[("10-7", { trigSession 1 with future := some .pending })], [], 0⟩
        "10-7" true).1 "10-7"
      = ((timeoutPath
        ⟨[("10-7", { trigSession 1 with future := some .pending })], [], 0⟩
        "10-7" true).1, false) :=
  c3_timeout_no_resurrection
    ⟨[("10-7", { trigSession 1 with future := some .pending })], [], 0⟩
    "10-7" true { trigSession 1 with future := some .pending } (by decide) (by decide)

/-- Claim C5: every worker termination — success, user cancel, timeout, or
internal error — runs the guaranteed finalizer exactly once: the pending
prompt-message ids recorded for the session are fully drained and recalled
(when recall bookkeeping is active), and the session is removed from the
active set; re-running the finalizer on the resulting state is a no-op, so
the drain/recall cannot happen twice. -/
theorem c5_cleanup_exactly_once (p : ExitPath) (g : GState) (sid : String) (en : Bool) :
    lookupA (workerExit p g sid en).1.sessions sid = none ∧
    (en = true →
      lookupA (workerExit p g sid en).1.recallIds sid = none ∧
      (workerExit p g sid en).2 =
        (workerExitBody p g sid en).2 ++
          ((lookupA (workerExitBody p g sid en).1.recallIds sid).getD []).map Act.recall) ∧
    workerFinally (workerExit p g sid en).1 sid en = ((workerExit p g sid en).1, []) := by
  refine ⟨?_, ?_, ?_⟩
  · unfold workerExit
    simp only [workerFinally_sessions, workerExitBody_sessions]
    exact lookupA_eraseA_self _ _
  · intro hen
    subst hen
    unfold workerExit workerFinally cleanupPrompts
    cases hids : lookupA (workerExitBody p g sid true).1.recallIds sid <;>
      simp [hids, lookupA_eraseA_self]
  · have hsess : eraseA (workerExit p g sid en).1.sessions sid
        = (workerExit p g sid en).1.sessions := by
      unfold workerExit
      simp only [workerFinally_sessions, workerExitBody_sessions]
      exact eraseA_idem _ _
    cases en with
    | true =>
      have hrec : lookupA (workerExit p g sid true).1.recallIds sid = none := by
        unfold workerExit workerFinally cleanupPrompts
        cases hids : lookupA (workerExitBody p g sid true).1.recallIds sid <;>
          simp [hids, lookupA_eraseA_self]
      unfold workerFinally cleanupPrompts
      simp [hrec, hsess]
    | false =>
      unfold workerFinally cleanupPrompts
      simp [hsess]

/-- Witness for `c5_cleanup_exactly_once`: an error exit with recall enabled
and two recorded prompt ids; both are recalled and the session is removed. -/
theorem c5_witness :
    lookupA (workerExit .internalError
        ⟨[("10-7", trigSession 1)], [("10-7", ["41", "42"])], 43⟩ "10-7" true).1.sessions "10-7"
      = none ∧
    (true = true →
      lookupA (workerExit .internalError
          ⟨[("10-7", trigSession 1)], [("10-7", ["41", "42"])], 43⟩ "10-7" true).1.recallIds "10-7"
        = none ∧
      (workerExit .internalError
          ⟨[("10-7", trigSession 1)], [("10-7", ["41", "42"])], 43⟩ "10-7" true).2 =
        (workerExitBody .internalError
            ⟨[("10-7", trigSession 1)], [("10-7", ["41", "42"])], 43⟩ "10-7" true).2 ++
          ((lookupA (workerExitBody .internalError
              ⟨[("10-7", trigSession 1)], [("10-7", ["41", "42"])], 43⟩
              "10-7" true).1.recallIds "10-7").getD []).map Act.recall) ∧
    workerFinally (workerExit .internalError
        ⟨[("10-7", trigSession 1)], [("10-7", ["41", "42"])], 43⟩ "10-7" true).1 "10-7" true
      = ((workerExit .internalError
          ⟨[("10-7", trigSession 1)], [("10-7", ["41", "42"])], 43⟩ "10-7" true).1, []) :=
  c5_cleanup_exactly_once .internalError
    ⟨[("10-7", trigSession 1)], [("10-7", ["41", "42"])], 43⟩ "10-7" true

/-! ## Claims C9, C10, C4 -/

/-- Claim C9: when starting a session, if the shortcut-supplied texts together
with the parsed texts are empty and the meme's parameter spec declares
non-empty `default_texts`, the created session's collected texts are exactly
those defaults; otherwise the resolved texts are used unchanged
(generation.py lines 329-338). -/
theorem c9_default_texts (g : GState) (sid : String) (en : Bool)
    (stexts ptexts : List String) (sopts popts : List (String × String))
    (imgs : List Img) (p : MemeParamsM)
    (h : lookupA g.sessions sid = none) :
    (stexts ++ ptexts = [] → p.default_texts ≠ [] →
      (lookupA (memeGenerateHandler g sid en stexts sopts ptexts imgs popts p).1.sessions sid).map
        SessionSt.texts = some p.default_texts) ∧
    (stexts ++ ptexts ≠ [] →
      (lookupA (memeGenerateHandler g sid en stexts sopts ptexts imgs popts p).1.sessions sid).map
        SessionSt.texts = some (stexts ++ ptexts)) ∧
    (p.default_texts = [] →
      (lookupA (memeGenerateHandler g sid en stexts sopts ptexts imgs popts p).1.sessions sid).map
        SessionSt.texts = some (stexts ++ ptexts)) := by
  unfold memeGenerateHandler
  rw [if_neg (by simp [h])]
  simp only [lookupA_setA_self, Option.map_some']
  unfold initialSessionTexts
  refine ⟨?_, ?_, ?_⟩
  · intro h1 h2
    rw [if_pos ⟨h1, h2⟩]
  · intro h1
    rw [if_neg (fun hc => h1 hc.1)]
  · intro h1
    rw [if_neg (fun hc => hc.2 h1)]

/-- Witness for `c9_default_texts`: no texts resolved, defaults present. -/
theorem c9_witness :
    (([] : List String) ++ [] = [] → ["默认"] ≠ ([] : List String) →
      (lookupA (memeGenerateHandler ⟨[], [], 0⟩ "10-7" false [] [] [] [] []
          ⟨1, 1, 1, 1, ["默认"]⟩).1.sessions "10-7").map SessionSt.texts = some ["默认"]) ∧
    (([] : List String) ++ [] ≠ [] →
      (lookupA (memeGenerateHandler ⟨[], [], 0⟩ "10-7" false [] [] [] [] []
          ⟨1, 1, 1, 1, ["默认"]⟩).1.sessions "10-7").map SessionSt.texts = some ([] ++ [])) ∧
    ((["默认"] : List String) = [] →
      (lookupA (memeGenerateHandler ⟨[], [], 0⟩ "10-7" false [] [] [] [] []
          ⟨1, 1, 1, 1, ["默认"]⟩).1.sessions "10-7").map SessionSt.texts = some ([] ++ [])) :=
  c9_default_texts ⟨[], [], 0⟩ "10-7" false [] [] [] [] [] ⟨1, 1, 1, 1, ["默认"]⟩ (by decide)

/-- Fixture for the closed parts of C10: a meme needing two texts and a
single follow-up message carrying two whitespace-separated tokens. -/
def sC10 : SessionSt :=
  ⟨[], [], [], ⟨0, 9, 2, 9, []⟩, 0, "waiting_for_input", some .pending⟩

/-- The step configuration used in concrete wait-loop runs. -/
def cfgC10 : StepCfg := ⟨"-取消", true, 2⟩

/-- The two-token follow-up message. -/
def mC10 : StepMsg := ⟨"你好 世界", []⟩

/-- Claim C10: a follow-up whose (stripped) text is accepted as still-needed
input appends each whitespace-separated token as its own text entry
(generation.py line 263); consequently one message can supply several text
parameters — concretely, with two texts still required, the single message
"你好 世界" completes the collection at once. -/
theorem c10_whitespace_split (cfg : StepCfg) (s : SessionSt) (m : StepMsg)
    (h1 : pyStrip m.text ≠ cfg.cancelCmd)
    (h2 : s.texts.length < s.params.min_texts)
    (h3 : pyStrip m.text ≠ "") :
    (sessionStep cfg s m).st.texts = s.texts ++ pySplitWs (pyStrip m.text) ∧
    (sessionStep cfg s m).st.invalidCount = 0 ∧
    (sessionStep cfgC10 sC10 mC10).ctl = .completed ∧
    (sessionStep cfgC10 sC10 mC10).st.texts = ["你好", "世界"] := by
  have hmain : (sessionStep cfg s m).st.texts = s.texts ++ pySplitWs (pyStrip m.text) ∧
      (sessionStep cfg s m).st.invalidCount = 0 := by
    unfold sessionStep
    rw [if_neg h1, if_pos (Or.inl ⟨h2, h3⟩)]
    dsimp only
    rw [if_pos (show s.texts.length < s.params.min_texts ∧ pyStrip m.text ≠ "" from ⟨h2, h3⟩)]
    constructor
    · split
      · split <;> rfl
      · split <;> rfl
    · split
      · split <;> rfl
      · split <;> rfl
  exact ⟨hmain.1, hmain.2, by decide, by decide⟩

/-- Witness for `c10_whitespace_split` at the concrete fixture. -/
theorem c10_witness :
    (sessionStep cfgC10 sC10 mC10).st.texts = sC10.texts ++ pySplitWs (pyStrip mC10.text) ∧
    (sessionStep cfgC10 sC10 mC10).st.invalidCount = 0 ∧
    (sessionStep cfgC10 sC10 mC10).ctl = .completed ∧
    (sessionStep cfgC10 sC10 mC10).st.texts = ["你好", "世界"] :=
  c10_whitespace_split cfgC10 sC10 mC10 (by decide) (by decide) (by decide)

/-- Fixture for the C4 counterexample: one text still needed, and follow-up
messages that carry neither text nor images (e.g. a sticker or voice clip). -/
def sC4 : SessionSt :=
  ⟨[], [], [], ⟨0, 9, 1, 9, []⟩, 0, "waiting_for_input", some .pending⟩

/-- The empty irrelevant follow-up message. -/
def mC4 : StepMsg := ⟨"", []⟩

/-- Claim C4 (counterexample): with `reprompt_threshold = 2`, two consecutive
irrelevant follow-ups that supply neither text nor images drive the
invalid-input counter to the threshold, yet no nudge is sent and the counter
is not reset (generation.py lines 276-281 pick no prompt when the message
carries no over-supplied kind), contradicting the claim that crossing the
threshold always produces exactly one nudge and a reset. -/
theorem c4_counterexample :
    cfgC10.repromptEnabled = true ∧
    cfgC10.repromptThreshold ≤ (sessionStep cfgC10 sC4 mC4).st.invalidCount + 1 ∧
    (sessionStep cfgC10 sC4 mC4).out = [] ∧
    (sessionStep cfgC10 (sessionStep cfgC10 sC4 mC4).st mC4).out = [] ∧
    (sessionStep cfgC10 (sessionStep cfgC10 sC4 mC4).st mC4).st.invalidCount = 2 := by
  decide

/-- Claim C4 (amended): on an irrelevant follow-up (no still-needed input), the
loop stays waiting and the collected data is unchanged; the invalid-input
counter is incremented by one — except that, when reprompting is enabled, the
incremented counter has reached the threshold, *and* the message supplied a
kind that is no longer needed (`smartNudge` is `some`), exactly one
contextual nudge is sent and the counter resets to zero.  When the
incremented counter is still below the threshold no nudge is ever sent. -/
theorem c4_reprompt_threshold (cfg : StepCfg) (s : SessionSt) (m : StepMsg)
    (hc : pyStrip m.text ≠ cfg.cancelCmd)
    (hirr : ¬((s.texts.length < s.params.min_texts ∧ pyStrip m.text ≠ "") ∨
              (s.images.length < s.params.min_images ∧ m.imgs ≠ []))) :
    (sessionStep cfg s m).ctl = .waiting ∧
    (sessionStep cfg s m).st.texts = s.texts ∧
    (sessionStep cfg s m).st.images = s.images ∧
    (cfg.repromptEnabled = true → cfg.repromptThreshold ≤ s.invalidCount + 1 →
      ∀ msg, smartNudge s m = some msg →
        (sessionStep cfg s m).out = [msg] ∧ (sessionStep cfg s m).st.invalidCount = 0) ∧
    (¬(cfg.repromptEnabled = true ∧ cfg.repromptThreshold ≤ s.invalidCount + 1) ∨
        smartNudge s m = none →
      (sessionStep cfg s m).out = [] ∧
      (sessionStep cfg s m).st.invalidCount = s.invalidCount + 1) ∧
    (s.invalidCount + 1 < cfg.repromptThreshold → (sessionStep cfg s m).out = []) := by
  unfold sessionStep
  rw [if_neg hc, if_neg hirr]
  dsimp only
  by_cases hcond : cfg.repromptEnabled = true ∧ cfg.repromptThreshold ≤ s.invalidCount + 1
  · rw [if_pos hcond]
    cases hnud : smartNudge s m with
    | some msg =>
      refine ⟨rfl, rfl, rfl, ?_, ?_, ?_⟩
      · intro _ _ msg2 hmsg2
        injection hmsg2 with hmsg2
        subst hmsg2
        exact ⟨rfl, rfl⟩
      · intro hcase
        rcases hcase with hcase | hcase
        · exact absurd hcond hcase
        · exact absurd hcase (by simp)
      · intro hlt
        exact absurd hcond.2 (by omega)
    | none =>
      refine ⟨rfl, rfl, rfl, ?_, ?_, ?_⟩
      · intro _ _ msg2 hmsg2
        exact absurd hmsg2 (by simp)
      · intro _
        exact ⟨rfl, rfl⟩
      · intro _
        rfl
  · rw [if_neg hcond]
    refine ⟨rfl, rfl, rfl, ?_, ?_, ?_⟩
    · intro he ht
      exact absurd ⟨he, ht⟩ hcond
    · intro _
      exact ⟨rfl, rfl⟩
    · intro _
      rfl

/-- The session state of the C4 witness: texts already sufficient, one image
still needed, counter one short of the threshold. -/
def sC4w : SessionSt :=
  ⟨[], [], [], ⟨1, 9, 0, 9, []⟩, 1, "waiting_for_input", some .pending⟩

/-- The irrelevant-but-text-carrying follow-up of the C4 witness. -/
def mC4w : StepMsg := ⟨"嗯", []⟩

/-- Witness for `c4_reprompt_threshold`: an irrelevant text message at the
threshold fires exactly one nudge and resets the counter. -/
theorem c4_witness :
    (sessionStep cfgC10 sC4w mC4w).out = ["文字已经够啦，请发送我需要的图片哦~"] ∧
    (sessionStep cfgC10 sC4w mC4w).st.invalidCount = 0 :=
  (c4_reprompt_threshold cfgC10 sC4w mC4w (by decide) (by decide)).2.2.2.1
    (by decide) (by decide) "文字已经够啦，请发送我需要的图片哦~" (by decide)

/-! ## Claim C8 -/

/-- Avatar source for the C8 counterexample: user 123 has an avatar. -/
def c8download : String → Option Img := fun u => if u = "123" then some [7] else none

/-- A message whose mention precedes its image attachment. -/
def c8msgs : List Seg := [.mention "123", .img (some [9])]

/-- Claim C8 (counterexample): `_get_images_from_message` processes the direct
segments in their original order, so a mention placed before an attachment
contributes its avatar *before* the attachment's bytes — the claimed order
"direct attachments, then mention-derived avatars" does not hold. -/
theorem c8_counterexample :
    getImagesFromMessage c8download c8msgs = [[7], [9]] ∧
    claimOrderImages c8download c8msgs = [[9], [7]] ∧
    getImagesFromMessage c8download c8msgs ≠ claimOrderImages c8download c8msgs := by
  refine ⟨by decide, by decide, by decide⟩

/-- Claim C8 (amended): image resolution processes the first reply segment's
chain and then the direct segments, each in segment order (attachments and
mention-derived avatars interleaved as they occur, not grouped); shortcut-name
avatars are appended after the message images, and when the sender-avatar
fallback is enabled and fewer images than the meme's minimum were collected,
the sender's avatar is prepended at the front; the uploaded image-id list
preserves the order of the (max-truncated) collected images. -/
theorem c8_image_order (download : String → Option Img) (msgs xs ys : List Seg)
    (names : List String) (useSender : Bool) (senderId : String) (minI maxI : Nat)
    (upload : Img → Nat) (imgs : List Img)
    (hxs : xs.find? isReplySeg = none) (hys : ys.find? isReplySeg = none) :
    (getImagesFromMessage download msgs =
      (((msgs.find? isReplySeg).map chainOf).getD []).flatMap (processSeg download)
        ++ msgs.flatMap (processSeg download)) ∧
    (getImagesFromMessage download (xs ++ ys) =
      getImagesFromMessage download xs ++ getImagesFromMessage download ys) ∧
    (buildPayloadImages download msgs names useSender senderId minI =
      (if useSender = true ∧ (getImagesFromMessage download msgs
            ++ names.flatMap (fun n => if isDigits n then (getAvatar download n).toList else [])).length < minI
       then (getAvatar download senderId).toList else [])
        ++ getImagesFromMessage download msgs
        ++ names.flatMap (fun n => if isDigits n then (getAvatar download n).toList else [])) ∧
    ((imagePayloadEntries upload imgs maxI).map Prod.fst = (imgs.take maxI).map upload) := by
  refine ⟨rfl, ?_, ?_, ?_⟩
  · unfold getImagesFromMessage
    rw [List.find?_append, hxs, hys]
    rw [List.flatMap_append]
    simp
  · unfold buildPayloadImages
    by_cases hc : useSender = true ∧ (getImagesFromMessage download msgs
        ++ names.flatMap (fun n => if isDigits n then (getAvatar download n).toList else [])).length < minI
    · rw [if_pos hc, if_pos hc]
      simp
    · rw [if_neg hc, if_neg hc]
      simp
  · unfold imagePayloadEntries uploadedIds
    rw [List.map_map]
    have : (Prod.fst ∘ fun p : Nat × Nat => (p.2, "img" ++ toString p.1)) = Prod.snd := rfl
    rw [this, List.enum_map_snd]

/-- Witness for `c8_image_order` on concrete reply-free segment lists. -/
theorem c8_witness :
    (getImagesFromMessage c8download c8msgs =
      (((c8msgs.find? isReplySeg).map chainOf).getD []).flatMap (processSeg c8download)
        ++ c8msgs.flatMap (processSeg c8download)) ∧
    (getImagesFromMessage c8download ([Seg.img (some [1])] ++ [Seg.mention "123"]) =
      getImagesFromMessage c8download [Seg.img (some [1])]
        ++ getImagesFromMessage c8download [Seg.mention "123"]) ∧
    (buildPayloadImages c8download c8msgs ["123"] true "9" 9 =
      (if true = true ∧ (getImagesFromMessage c8download c8msgs
            ++ ["123"].flatMap (fun n => if isDigits n then (getAvatar c8download n).toList else [])).length < 9
       then (getAvatar c8download "9").toList else [])
        ++ getImagesFromMessage c8download c8msgs
        ++ ["123"].flatMap (fun n => if isDigits n then (getAvatar c8download n).toList else [])) ∧
    ((imagePayloadEntries (fun b => b.length) [[7], [9], [4]] 2).map Prod.fst
      = (([[7], [9], [4]] : List Img).take 2).map (fun b => b.length)) :=
  c8_image_order c8download c8msgs [Seg.img (some [1])] [Seg.mention "123"]
    ["123"] true "9" 9 2 (fun b => b.length) [[7], [9], [4]] (by rfl) (by rfl)

/-! ## Claim C2 -/

/-- The default thresholds (main.py lines 82-85): direct ≤ 3, zip > 20,
forward bundling and zip packaging enabled. -/
def defaultDeliveryCfg : DeliveryCfg := ⟨3, true, 20, true⟩

/-- An aiocqhttp group chat. -/
def groupCtx : PlatformCtx := ⟨true, some "10001"⟩

/-- An aiocqhttp direct (private) chat. -/
def privateCtx : PlatformCtx := ⟨true, none⟩

/-- A content sniffer that recognises nothing (everything defaults to png). -/
def sniffNone : Img → Option String := fun _ => none

/-- A list of `n` distinct one-byte images. -/
def imgsN (n : Nat) : List Img := (List.range n).map (fun i => [i])

/-- Claim C2: the delivery decision is a first-match-wins cascade — empty
result ⇒ one failure notice; 0 < count ≤ direct threshold (inclusive) ⇒ one
combined inline message; else zip enabled and count strictly above the zip
threshold ⇒ notice plus a single zip whose entries are named
`image_1..image_N` with sniffed extension defaulting to png; else forward
bundling enabled ⇒ notice plus one forward bundle in a group, or sequential
delivery with 0.5 s delays in a direct chat; else count notice plus
sequential delivery with the same delays.  With the defaults, counts 1 and 3
are inline, 4 is forward (group) / sequential fallback (direct), 21 is zip. -/
theorem c2_delivery_cascade :
    (∀ cfg ctx sniff, prepareSendResults cfg ctx sniff (.inr []) = [failNotice]) ∧
    (∀ cfg ctx sniff (l : List Img), l ≠ [] → l.length ≤ cfg.direct_send_threshold →
      prepareSendResults cfg ctx sniff (.inr l) = [SendAct.chainImgs l]) ∧
    (∀ cfg ctx sniff (l : List Img) gid, cfg.direct_send_threshold < l.length →
      cfg.send_as_zip_enabled = true → cfg.zip_threshold < l.length →
      ctx.isAiocq = true → ctx.groupId = some gid →
      prepareSendResults cfg ctx sniff (.inr l) =
        [SendAct.plainMsg ("图片过多（" ++ toString l.length ++ "张），将打包为 .zip 文件发送..."),
         SendAct.zipUpload (zipEntries sniff l)]) ∧
    (∀ sniff (l : List Img) (i : Nat) (b : Img), l[i]? = some b →
      (zipEntries sniff l)[i]? =
        some ("image_" ++ toString (i + 1) ++ "." ++ ((sniff b).getD "png"), b)) ∧
    (∀ cfg ctx sniff (l : List Img) gid, cfg.direct_send_threshold < l.length →
      ¬(cfg.send_as_zip_enabled = true ∧ cfg.zip_threshold < l.length) →
      cfg.send_forward_msg = true → ctx.isAiocq = true → ctx.groupId = some gid →
      prepareSendResults cfg ctx sniff (.inr l) =
        [SendAct.plainMsg ("处理完成，生成 " ++ toString l.length ++ " 张图片，将以合并转发形式发送："),
         SendAct.forwardMsg gid l]) ∧
    (∀ cfg sniff (l : List Img), cfg.direct_send_threshold < l.length →
      ¬(cfg.send_as_zip_enabled = true ∧ cfg.zip_threshold < l.length) →
      cfg.send_forward_msg = true →
      prepareSendResults cfg ⟨true, none⟩ sniff (.inr l) =
        SendAct.plainMsg ("处理完成，生成 " ++ toString l.length ++ " 张图片，将以合并转发形式发送：") ::
          SendAct.plainMsg "私聊不支持发送合并转发，将逐条发送..." :: seqSend l) ∧
    (∀ cfg ctx sniff (l : List Img), l ≠ [] → cfg.direct_send_threshold < l.length →
      ¬(cfg.send_as_zip_enabled = true ∧ cfg.zip_threshold < l.length) →
      cfg.send_forward_msg = false →
      prepareSendResults cfg ctx sniff (.inr l) =
        SendAct.plainMsg ("处理完成，共生成 " ++ toString l.length ++ " 张图片：") :: seqSend l) ∧
    (prepareSendResults defaultDeliveryCfg groupCtx sniffNone (.inr (imgsN 1))
      = [SendAct.chainImgs (imgsN 1)]) ∧
    (prepareSendResults defaultDeliveryCfg groupCtx sniffNone (.inr (imgsN 3))
      = [SendAct.chainImgs (imgsN 3)]) ∧
    (prepareSendResults defaultDeliveryCfg groupCtx sniffNone (.inr (imgsN 4))
      = [SendAct.plainMsg "处理完成，生成 4 张图片，将以合并转发形式发送：",
         SendAct.forwardMsg "10001" (imgsN 4)]) ∧
    (prepareSendResults defaultDeliveryCfg privateCtx sniffNone (.inr (imgsN 4))
      = SendAct.plainMsg "处理完成，生成 4 张图片，将以合并转发形式发送：" ::
          SendAct.plainMsg "私聊不支持发送合并转发，将逐条发送..." :: seqSend (imgsN 4)) ∧
    (prepareSendResults defaultDeliveryCfg groupCtx sniffNone (.inr (imgsN 21))
      = [SendAct.plainMsg "图片过多（21张），将打包为 .zip 文件发送...",
         SendAct.zipUpload (zipEntries sniffNone (imgsN 21))]) := by
  refine ⟨?_, ?_, ?_, ?_, ?_, ?_, ?_, by decide, by decide, by decide, by decide, by decide⟩
  · intro cfg ctx sniff
    rfl
  · intro cfg ctx sniff l h1 h2
    unfold prepareSendResults
    rw [if_neg (by simp [pyFalsyResult, h1])]
    dsimp only [toImageList]
    rw [if_neg h1, if_pos h2]
  · intro cfg ctx sniff l gid h1 h2 h3 h4 h5
    have hne : l ≠ [] := by intro he; subst he; simp at h1
    unfold prepareSendResults
    rw [if_neg (by simp [pyFalsyResult, hne])]
    dsimp only [toImageList]
    rw [if_neg hne, if_neg (by omega), if_pos ⟨h2, h3⟩,
      if_pos ⟨h4, by simp [h5]⟩]
  · intro sniff l i b hib
    unfold zipEntries
    rw [List.getElem?_map, List.getElem?_enum, hib]
    rfl
  · intro cfg ctx sniff l gid h1 h2 h3 h4 h5
    have hne : l ≠ [] := by intro he; subst he; simp at h1
    unfold prepareSendResults
    rw [if_neg (by simp [pyFalsyResult, hne])]
    dsimp only [toImageList]
    rw [if_neg hne, if_neg (by omega), if_neg h2, if_pos h3,
      if_pos h4, h5]
  · intro cfg sniff l h1 h2 h3
    have hne : l ≠ [] := by intro he; subst he; simp at h1
    unfold prepareSendResults
    rw [if_neg (by simp [pyFalsyResult, hne])]
    dsimp only [toImageList]
    rw [if_neg hne, if_neg (by omega), if_neg h2, if_pos h3,
      if_pos rfl]
  · intro cfg ctx sniff l h0 h1 h2 h3
    unfold prepareSendResults
    rw [if_neg (by simp [pyFalsyResult, h0])]
    dsimp only [toImageList]
    rw [if_neg h0, if_neg (by omega), if_neg h2, if_neg (by simp [h3])]

/-- Witness for `c2_delivery_cascade`: three images in a private chat are
delivered inline as one combined message. -/
theorem c2_witness :
    imgsN 3 ≠ [] ∧ (imgsN 3).length ≤ defaultDeliveryCfg.direct_send_threshold ∧
    prepareSendResults defaultDeliveryCfg privateCtx sniffNone (.inr (imgsN 3))
      = [SendAct.chainImgs (imgsN 3)] :=
  ⟨by decide, by decide,
    c2_delivery_cascade.2.1 defaultDeliveryCfg privateCtx sniffNone (imgsN 3)
      (by decide) (by decide)⟩

/-! ## Claim C6 -/

/-- Under the primary-key discipline, two rules agreeing on
`(meme_key, scope, subject_id)` are the same row. -/
theorem visRule_unique {rules : List VisRule}
    (hpk : rules.Pairwise (fun r1 r2 =>
      ¬(r1.meme_key = r2.meme_key ∧ r1.scope = r2.scope ∧ r1.subject_id = r2.subject_id)))
    {a b : VisRule} (ha : a ∈ rules) (hb : b ∈ rules)
    (h : a.meme_key = b.meme_key ∧ a.scope = b.scope ∧ a.subject_id = b.subject_id) :
    a = b := by
  by_contra hne
  have hsym : Symmetric (fun r1 r2 : VisRule =>
      ¬(r1.meme_key = r2.meme_key ∧ r1.scope = r2.scope ∧ r1.subject_id = r2.subject_id)) := by
    intro x y hxy hyx
    exact hxy ⟨hyx.1.symm, hyx.2.1.symm, hyx.2.2.symm⟩
  exact (hpk.forall hsym ha hb hne) h

/-- The global-mode query returns `white` exactly when a global white rule
for the key exists (rows unique, global rows keyed on `'*'`). -/
theorem queryGlobalMode_white_iff (rules : List VisRule) (key : String)
    (hpk : rules.Pairwise (fun r1 r2 =>
      ¬(r1.meme_key = r2.meme_key ∧ r1.scope = r2.scope ∧ r1.subject_id = r2.subject_id)))
    (hglob : ∀ r ∈ rules, r.scope = "global" → r.subject_id = "*") :
    queryGlobalMode rules key = some "white" ↔
      ∃ r ∈ rules, r.meme_key = key ∧ r.scope = "global" ∧ r.mode = "white" := by
  unfold queryGlobalMode
  constructor
  · intro h
    cases hf : rules.find? (fun r => decide (r.meme_key = key ∧ r.scope = "global")) with
    | none => rw [hf] at h; simp at h
    | some r0 =>
      rw [hf] at h
      simp only [Option.map_some'] at h
      injection h with h
      have hmem := List.mem_of_find?_eq_some hf
      have hp := List.find?_some hf
      simp only [decide_eq_true_eq] at hp
      exact ⟨r0, hmem, hp.1, hp.2, h⟩
  · rintro ⟨r, hr, hk, hs, hm⟩
    cases hf : rules.find? (fun r => decide (r.meme_key = key ∧ r.scope = "global")) with
    | none =>
      have := List.find?_eq_none.mp hf r hr
      simp [hk, hs] at this
    | some r0 =>
      have hmem0 := List.mem_of_find?_eq_some hf
      have hp0 := List.find?_some hf
      simp only [decide_eq_true_eq] at hp0
      have heq : r0 = r :=
        visRule_unique hpk hmem0 hr
          ⟨hp0.1.trans hk.symm, hp0.2.trans hs.symm,
           (hglob r0 hmem0 hp0.2).trans ((hglob r hr hs).symm)⟩
      rw [heq]
      simp [hm]

/-- The group-mode query returns mode `m` exactly when a group rule for
`(key, gid)` with mode `m` exists (rows unique). -/
theorem queryGroupMode_iff (rules : List VisRule) (key gid m : String)
    (hpk : rules.Pairwise (fun r1 r2 =>
      ¬(r1.meme_key = r2.meme_key ∧ r1.scope = r2.scope ∧ r1.subject_id = r2.subject_id))) :
    queryGroupMode rules key gid = some m ↔
      ∃ r ∈ rules, r.meme_key = key ∧ r.scope = "group" ∧ r.subject_id = gid ∧ r.mode = m := by
  unfold queryGroupMode
  constructor
  · intro h
    cases hf : rules.find?
        (fun r => decide (r.meme_key = key ∧ r.scope = "group" ∧ r.subject_id = gid)) with
    | none => rw [hf] at h; simp at h
    | some r0 =>
      rw [hf] at h
      simp only [Option.map_some'] at h
      injection h with h
      have hmem := List.mem_of_find?_eq_some hf
      have hp := List.find?_some hf
      simp only [decide_eq_true_eq] at hp
      exact ⟨r0, hmem, hp.1, hp.2.1, hp.2.2, h⟩
  · rintro ⟨r, hr, hk, hs, hsub, hm⟩
    cases hf : rules.find?
        (fun r => decide (r.meme_key = key ∧ r.scope = "group" ∧ r.subject_id = gid)) with
    | none =>
      have := List.find?_eq_none.mp hf r hr
      simp [hk, hs, hsub] at this
    | some r0 =>
      have hmem0 := List.mem_of_find?_eq_some hf
      have hp0 := List.find?_some hf
      simp only [decide_eq_true_eq] at hp0
      have heq : r0 = r :=
        visRule_unique hpk hmem0 hr
          ⟨hp0.1.trans hk.symm, hp0.2.1.trans hs.symm, hp0.2.2.trans hsub.symm⟩
      rw [heq]
      simp [hm]

/-- Claim C6: with unique rule rows and `'*'`-keyed global rows, the
disabled/enabled decision is exactly: a global white rule for the key exists
⇒ disabled iff no matching group white rule; no global white rule ⇒ disabled
iff a matching group black rule exists; and with no rules at all the meme is
enabled. -/
theorem c6_visibility_evaluation (rules : List VisRule) (key : String) (gidOpt : Option String)
    (hpk : rules.Pairwise (fun r1 r2 =>
      ¬(r1.meme_key = r2.meme_key ∧ r1.scope = r2.scope ∧ r1.subject_id = r2.subject_id)))
    (hglob : ∀ r ∈ rules, r.scope = "global" → r.subject_id = "*") :
    ((∃ r ∈ rules, r.meme_key = key ∧ r.scope = "global" ∧ r.mode = "white") →
      (is_meme_disabled rules key gidOpt = true ↔
        ¬ ∃ gid ∈ gidOpt.toList, ∃ r ∈ rules,
          r.meme_key = key ∧ r.scope = "group" ∧ r.subject_id = gid ∧ r.mode = "white")) ∧
    ((¬ ∃ r ∈ rules, r.meme_key = key ∧ r.scope = "global" ∧ r.mode = "white") →
      (is_meme_disabled rules key gidOpt = true ↔
        ∃ gid ∈ gidOpt.toList, ∃ r ∈ rules,
          r.meme_key = key ∧ r.scope = "group" ∧ r.subject_id = gid ∧ r.mode = "black")) ∧
    is_meme_disabled [] key gidOpt = false := by
  refine ⟨?_, ?_, ?_⟩
  · intro hex
    have hG := (queryGlobalMode_white_iff rules key hpk hglob).mpr hex
    unfold is_meme_disabled
    dsimp only
    rw [hG, if_pos rfl]
    cases gidOpt with
    | none => simp
    | some gid =>
      simp only [decide_eq_true_eq, Option.toList_some, List.mem_singleton,
        exists_eq_left]
      exact not_congr (queryGroupMode_iff rules key gid "white" hpk)
  · intro hnex
    have hG : queryGlobalMode rules key ≠ some "white" := fun h =>
      hnex ((queryGlobalMode_white_iff rules key hpk hglob).mp h)
    unfold is_meme_disabled
    dsimp only
    rw [if_neg hG]
    cases gidOpt with
    | none => simp
    | some gid =>
      simp only [decide_eq_true_eq, Option.toList_some, List.mem_singleton,
        exists_eq_left]
      exact queryGroupMode_iff rules key gid "black" hpk
  · cases gidOpt <;> simp [is_meme_disabled, queryGlobalMode, queryGroupMode]

/-- The rule set of the C6 witness: meme `k` is globally white-listed and
white-listed in group `g1`. -/
def c6Rules : List VisRule :=
  [⟨"k", "global", "*", "white"⟩, ⟨"k", "group", "g1", "white"⟩]

/-- Witness for `c6_visibility_evaluation`: under a global white rule, the
disabled bit is the absence of a matching group white rule. -/
theorem c6_witness :
    is_meme_disabled c6Rules "k" (some "g1") = true ↔
      ¬ ∃ gid ∈ (some "g1" : Option String).toList, ∃ r ∈ c6Rules,
        r.meme_key = "k" ∧ r.scope = "group" ∧ r.subject_id = gid ∧ r.mode = "white" :=
  (c6_visibility_evaluation c6Rules "k" (some "g1") (by decide) (by decide)).1 (by decide)

/-! ## Claim C7 -/

/-- Claim C7: command dispatch is longest-command-first — whenever some command
name is a leading piece of the (prefix-stripped) text, the dispatcher selects
a command that is also a leading piece and whose length is at least that of
every such candidate, so a shorter command never shadows a longer one; in
particular `"表情详情 猫"` routes to `"表情详情"`. -/
theorem c7_longest_command_first :
    (∀ text c, c ∈ cmdKeys → pyStartsWith text c = true →
      ∃ r, matchCommand text = some r ∧ r ∈ cmdKeys ∧ pyStartsWith text r = true ∧
        c.length ≤ r.length) ∧
    matchCommand "表情详情 猫" = some "表情详情" := by
  constructor
  · intro text c hc hpfx
    have hstats : ∀ x ∈ cmdKeys, ¬(x = "表情统计") := by decide
    have hcs : c ∈ sortLenDesc cmdKeys := (mem_sortLenDesc c cmdKeys).mpr hc
    have hpc : (!(c == "表情统计") && pyStartsWith text c) = true := by
      simp [hstats c hc, hpfx]
    unfold matchCommand
    cases hf : (sortLenDesc cmdKeys).find?
        (fun x => !(x == "表情统计") && pyStartsWith text x) with
    | none =>
      exfalso
      have := List.find?_eq_none.mp hf c hcs
      rw [hpc] at this
      exact this rfl
    | some r =>
      have hmem := List.mem_of_find?_eq_some hf
      have hp := List.find?_some hf
      have hrp : pyStartsWith text r = true := by
        have := hp
        simp only [Bool.and_eq_true] at this
        exact this.2
      refine ⟨r, rfl, (mem_sortLenDesc r cmdKeys).mp hmem, hrp, ?_⟩
      have hdom := find?_pairwise_dominates (pairwise_sortLenDesc cmdKeys) hf c hcs hpc
      rcases hdom with h | h
      · rw [h]
      · exact h
  · decide

/-- Witness for `c7_longest_command_first`: the candidate `"表情详情"` is a
leading piece of `"表情详情 猫"`, so a command at least that long is chosen. -/
theorem c7_witness :
    ∃ r, matchCommand "表情详情 猫" = some r ∧ r ∈ cmdKeys ∧
      pyStartsWith "表情详情 猫" r = true ∧ ("表情详情" : String).length ≤ r.length :=
  c7_longest_command_first.1 "表情详情 猫" "表情详情" (by decide) (by decide)
